import Mathlib

/-!
Verification of the candidate-screening scoring pipeline of the
smart-recruiter backend.

Python strings are modelled as `List Char`; `str.lower` as a `Char.toLower`
map (the inputs of interest are ASCII); the concrete regular expressions of
`screening_crew.py` are modelled by hand-rolled leftmost-match scanners whose
character classes (`\s`, `:`, `\d`, literals) are pairwise disjoint, so the
greedy backtracking-free scan coincides with Python `re.search` semantics on
these particular patterns.
-/

namespace SmartRecruiter

/-- ASCII model of Python `str.lower()`. -/
def pyLower (s : List Char) : List Char := s.map Char.toLower

/-- Python regex `\s` over ASCII text: space, tab, newline, carriage return,
vertical tab, form feed. -/
def isPySpace (c : Char) : Bool :=
  c == ' ' || c == '\t' || c == '\n' || c == '\r' || c == '\x0b' || c == '\x0c'

/-- The character class `[\s:]` used by the score patterns. -/
def isSpaceColon (c : Char) : Bool := isPySpace c || c == ':'

/-- Numeric value of a run of decimal digits, as Python `int` on the captured
group. -/
def digitsToNat (ds : List Char) : Nat :=
  ds.foldl (fun acc c => acc * 10 + (c.toNat - ('0').toNat)) 0

/-- Consume a literal at the head of the text, returning the rest. -/
def dropLit (lit s : List Char) : Option (List Char) :=
  if lit.isPrefixOf s then some (s.drop lit.length) else none

/-- Python `needle in hay` substring test. -/
def strIn (needle : List Char) : List Char → Bool
  | [] => needle.isEmpty
  | c :: t => needle.isPrefixOf (c :: t) || strIn needle t

/-- Model of `re.search`: scan start positions left to right, returning the first
position where the pattern matcher succeeds. -/
def reSearch (matchAt : List Char → Option Nat) : List Char → Option Nat
  | [] => matchAt []
  | c :: t =>
    match matchAt (c :: t) with
    | some n => some n
    | none => reSearch matchAt t

/-- Matcher at a fixed position for `match_score[\s:]*(\d+)`
(`screening_crew.py`, extract_score_from_result, first pattern). -/
def pat1At (s : List Char) : Option Nat :=
  match dropLit ("match_score").data s with
  | none => none
  | some r =>
    let r2 := r.dropWhile isSpaceColon
    let ds := r2.takeWhile Char.isDigit
    if ds.isEmpty then none else some (digitsToNat ds)

/-- Shared tail `[\s:]+(\d+)` of several patterns: at least one space/colon,
then a captured digit run. -/
def colonNumTail (r : List Char) : Option Nat :=
  if (r.takeWhile isSpaceColon).isEmpty then none
  else
    let r2 := r.dropWhile isSpaceColon
    let ds := r2.takeWhile Char.isDigit
    if ds.isEmpty then none else some (digitsToNat ds)

/-- Matcher for `(?:final\s*)?(?:match\s*)?score[\s:]+(\d+)`.  The optional
literal prefixes start with distinct letters, so at any fixed position at most
one way of matching exists. -/
def pat2At (s : List Char) : Option Nat :=
  let s1 := match dropLit ("final").data s with
    | some r => r.dropWhile isPySpace
    | none => s
  let s2 := match dropLit ("match").data s1 with
    | some r => r.dropWhile isPySpace
    | none => s1
  match dropLit ("score").data s2 with
  | none => none
  | some r => colonNumTail r

/-- Matcher for `(\d+)\s*(?:%|/100|out of 100)`. -/
def pat3At (s : List Char) : Option Nat :=
  let ds := s.takeWhile Char.isDigit
  if ds.isEmpty then none
  else
    let r := (s.drop ds.length).dropWhile isPySpace
    if ("%").data.isPrefixOf r || ("/100").data.isPrefixOf r
        || ("out of 100").data.isPrefixOf r then
      some (digitsToNat ds)
    else none

/-- Matcher for `rating[\s:]+(\d+)`. -/
def pat4At (s : List Char) : Option Nat :=
  match dropLit ("rating").data s with
  | none => none
  | some r => colonNumTail r

/-- Matcher for `overall[\s:]+(\d+)`. -/
def pat5At (s : List Char) : Option Nat :=
  match dropLit ("overall").data s with
  | none => none
  | some r => colonNumTail r

/-- Matcher for `\*\*(\d+)\*\*\s*(?:%|/100)?`; the trailing optional group
never fails, so it does not constrain the match. -/
def pat6At (s : List Char) : Option Nat :=
  match dropLit ("**").data s with
  | none => none
  | some r =>
    let ds := r.takeWhile Char.isDigit
    if ds.isEmpty then none
    else if ("**").data.isPrefixOf (r.drop ds.length) then some (digitsToNat ds)
    else none

/-- The guard `if 0 <= score <= 100: return score` applied to a search result
(the lower bound is vacuous over `Nat`). -/
def inRange100 (o : Option Nat) : Option Nat :=
  o.bind (fun n => if n ≤ 100 then some n else none)

/-- One alternation step of `re.findall` at a fixed position: the first
alternative (in the listed order) that is a prefix, with its length. -/
def tryAlts (alts : List (List Char)) (s : List Char) : Option Nat :=
  alts.findSome? (fun a => if a.isPrefixOf s then some a.length else none)

/-- Helper for `countOcc`: the second argument counts characters still to be
skipped because they belong to the previously counted match, letting the scan
advance one character per step (structural recursion). -/
def countOccAux (alts : List (List Char)) : List Char → Nat → Nat
  | [], _ => 0
  | _ :: t, Nat.succ skip => countOccAux alts t skip
  | c :: t, 0 =>
    match tryAlts alts (c :: t) with
    | some k => 1 + countOccAux alts t (k - 1)
    | none => countOccAux alts t 0

/-- Count of non-overlapping matches of an alternation of (nonempty) literal
alternatives, as `len(re.findall(...))`: after a match of length `k` the scan
resumes `k` characters further on. -/
def countOcc (alts : List (List Char)) (s : List Char) : Nat :=
  countOccAux alts s 0

/-- Alternatives of `(?:meets|has|matches|qualified|proficient)`. -/
def matchAlts : List (List Char) :=
  [("meets").data, ("has").data, ("matches").data, ("qualified").data,
   ("proficient").data]

/-- Alternatives of `(?:missing|lacks|no experience|not found|does not have|gap)`. -/
def missAlts : List (List Char) :=
  [("missing").data, ("lacks").data, ("no experience").data,
   ("not found").data, ("does not have").data, ("gap").data]

/-- The keyword-counting fallback of `extract_score_from_result`
(`screening_crew.py` lines 329-350), on the already lowercased text. -/
def fallbackScore (rl : List Char) : Nat :=
  let matchCount := countOcc matchAlts rl
  let missCount := countOcc missAlts rl
  let base_score :=
    if missCount > matchCount then 45
    else if matchCount > missCount * 2 then 70
    else 55
  if strIn ("strong hire").data rl then min (base_score + 20) 90
  else if strIn ("no hire").data rl || strIn ("reject").data rl then
    max (base_score - 20) 25
  else if strIn ("hire").data rl then min (base_score + 10) 80
  else if strIn ("maybe").data rl || strIn ("consider").data rl then base_score
  else base_score

/-- Body of `extract_score_from_result` on the lowercased text: the six numeric
patterns are tried in order, each accepted only when its first match is in
range, before falling back to keyword counting. -/
def extractCore (rl : List Char) : Nat :=
  match inRange100 (reSearch pat1At rl) with
  | some n => n
  | none =>
    match inRange100 (reSearch pat2At rl) with
    | some n => n
    | none =>
      match inRange100 (reSearch pat3At rl) with
      | some n => n
      | none =>
        match inRange100 (reSearch pat4At rl) with
        | some n => n
        | none =>
          match inRange100 (reSearch pat5At rl) with
          | some n => n
          | none =>
            match inRange100 (reSearch pat6At rl) with
            | some n => n
            | none => fallbackScore rl

/-- Function `extract_score_from_result` (`screening_crew.py` lines 299-350). -/
def extract_score_from_result (result : List Char) : Nat :=
  extractCore (pyLower result)

/-- Function `extract_recommendation` (`screening_crew.py` lines 353-366). -/
def extract_recommendation (result : List Char) : String :=
  let rl := pyLower result
  if strIn ("strong hire").data rl then "strong_hire"
  else if strIn ("strong no hire").data rl then "strong_no_hire"
  else if strIn ("no hire").data rl then "no_hire"
  else if strIn ("hire").data rl then "hire"
  else "review"

/-- Split a text into its lines (separator `\n`), to state that a text
contains a line of a given shape. -/
def linesOf : List Char → List (List Char)
  | [] => [[]]
  | c :: t =>
    if c = '\n' then [] :: linesOf t
    else
      match linesOf t with
      | l :: ls => (c :: l) :: ls
      | [] => [[c]]

/-- A line of the form `MATCH_SCORE: n` (up to case and `[\s:]*` separators):
the `match_score` pattern matches at its start, yielding `n`. -/
def lineMatchScoreVal (l : List Char) : Option Nat := pat1At (pyLower l)

/-- Predicate `noNumericScore rl`: holds when none of the six numeric-score regexes of
`extract_score_from_result` yields an in-range number on the lowercased
text `rl`, i.e. exactly when the code reaches its keyword-counting fallback. -/
def noNumericScore (rl : List Char) : Bool :=
  (inRange100 (reSearch pat1At rl)).isNone &&
  (inRange100 (reSearch pat2At rl)).isNone &&
  (inRange100 (reSearch pat3At rl)).isNone &&
  (inRange100 (reSearch pat4At rl)).isNone &&
  (inRange100 (reSearch pat5At rl)).isNone &&
  (inRange100 (reSearch pat6At rl)).isNone

/-- The fallback score as the claim describes it: a base of 45 when
miss-keywords outnumber match-keywords, 70 when match-keywords exceed twice
the miss-keywords, 55 otherwise, then the first applicable adjustment of
+20 capped at 90 for a text containing the recommendation keyword pair
strong/hire, -20 floored at 25 for no-hire or reject, +10 capped at 80 for
hire, and no change otherwise. -/
def claimFallbackScore (rl : List Char) : Nat :=
  let m := countOcc matchAlts rl
  let x := countOcc missAlts rl
  let base := if x > m then 45 else if m > 2 * x then 70 else 55
  if strIn ("strong hire").data rl then min (base + 20) 90
  else if strIn ("no hire").data rl || strIn ("reject").data rl then
    max (base - 20) 25
  else if strIn ("hire").data rl then min (base + 10) 80
  else base

/-! ### SkillMatcherTool (`tools/skill_matcher.py`)

`SkillMatcherTool._run` is modelled on the data after `json.loads`: the
claim quantifies over valid inputs, a JSON object with a list of candidate
skill strings and a nonempty list of requirement objects.  Scores are
Python floats computed from small integer counts; they are modelled as
rationals. -/

/-- Python `s.lower().strip()`. -/
def pyStrip (s : List Char) : List Char :=
  ((s.dropWhile isPySpace).reverse.dropWhile isPySpace).reverse

/-- Python `s.lower().strip()` as applied to every skill string. -/
def normSkill (s : List Char) : List Char := pyStrip (pyLower s)

/-- A job requirement object: `req.get('skill', '')` and
`req.get('required', True)` (the `level` field is read by the code but never
used in the score). -/
structure Req where
  skill : List Char
  required : Bool := true
deriving DecidableEq

/-- The fuzzy containment test of `_run`: some candidate skill contains the
requirement skill or vice versa (both already lowercased and stripped). -/
def skillIsMatched (candidate_skills : List (List Char)) (skill : List Char) : Bool :=
  candidate_skills.any (fun cs => strIn skill cs || strIn cs skill)

/-- The four skill lists `_run` accumulates over the requirement loop. -/
structure SkillBuckets where
  matched_required : List (List Char)
  missing_required : List (List Char)
  matched_optional : List (List Char)
  missing_optional : List (List Char)

def emptyBuckets : SkillBuckets := ⟨[], [], [], []⟩

/-- One iteration of the requirement loop of `_run`
(`skill_matcher.py` lines 36-57). -/
def classifyReq (candidate_skills : List (List Char)) (b : SkillBuckets)
    (req : Req) : SkillBuckets :=
  let skill := normSkill req.skill
  if skillIsMatched candidate_skills skill then
    if req.required then
      { b with matched_required := b.matched_required ++ [skill] }
    else
      { b with matched_optional := b.matched_optional ++ [skill] }
  else
    if req.required then
      { b with missing_required := b.missing_required ++ [skill] }
    else
      { b with missing_optional := b.missing_optional ++ [skill] }

/-- The numeric outcome of `_run` that is interpolated into its report. -/
structure MatchAnalysis where
  buckets : SkillBuckets
  required_score : ℚ
  optional_score : ℚ
  overall_score : ℚ

/-- The score computation of `_run` (`skill_matcher.py` lines 36-67),
after the nonemptiness guard. -/
def runAnalysis (candidate_skills_raw : List (List Char))
    (job_requirements : List Req) : MatchAnalysis :=
  let candidate_skills := candidate_skills_raw.map normSkill
  let b := job_requirements.foldl (classifyReq candidate_skills) emptyBuckets
  let total_required := b.matched_required.length + b.missing_required.length
  let total_optional := b.matched_optional.length + b.missing_optional.length
  let required_score : ℚ :=
    if total_required > 0 then
      (b.matched_required.length : ℚ) / (total_required : ℚ) * 100
    else 100
  let optional_score : ℚ :=
    if total_optional > 0 then
      (b.matched_optional.length : ℚ) / (total_optional : ℚ) * 100
    else 100
  let overall_score := required_score * (0.7 : ℚ) + optional_score * (0.3 : ℚ)
  ⟨b, required_score, optional_score, overall_score⟩

/-- Method `SkillMatcherTool._run` on parsed input: an error report when the
requirement list is empty, the match analysis otherwise. -/
def skillMatcherRun (candidate_skills_raw : List (List Char))
    (job_requirements : List Req) : Except String MatchAnalysis :=
  if job_requirements.isEmpty then .error "Error: No job requirements provided"
  else .ok (runAnalysis candidate_skills_raw job_requirements)

/-- The claim's matching predicate: a requirement counts as matched iff its
lowercased, stripped skill string is a substring of some lowercased,
stripped candidate skill or vice versa. -/
def reqMatchedByClaim (cands : List (List Char)) (r : Req) : Bool :=
  cands.any (fun c =>
    strIn (normSkill r.skill) (normSkill c) || strIn (normSkill c) (normSkill r.skill))

/-- The claim's required score: the percentage of required requirements
matched, 100 when no requirement is required. -/
def claimRequiredScore (cands : List (List Char)) (reqs : List Req) : ℚ :=
  let reqd := reqs.filter (fun r => r.required)
  if reqd.length = 0 then 100
  else 100 * ((reqd.filter (reqMatchedByClaim cands)).length : ℚ) / (reqd.length : ℚ)

/-- The claim's optional score: the percentage of optional requirements
matched, 100 when no requirement is optional. -/
def claimOptionalScore (cands : List (List Char)) (reqs : List Req) : ℚ :=
  let opt := reqs.filter (fun r => !r.required)
  if opt.length = 0 then 100
  else 100 * ((opt.filter (reqMatchedByClaim cands)).length : ℚ) / (opt.length : ℚ)

/-! ### Screening crew (`crews/screening_crew.py`)

`crew.kickoff()` delegates to an external LLM; it is modelled as an oracle
outcome, either a result text or a raised exception.  The agent and task
construction (lines 42-150) only shapes the prompt passed to that oracle and
has no other observable effect on the returned dict, so it is not modelled
separately. -/

inductive CrewOutcome
  | ok (result : List Char)
  | exn (message : String)
deriving DecidableEq

/-- The result dict built by `screen_candidate` / `quick_screen_candidate`:
the success dict carries analysis, score, status and recommendation; the
failure dict carries an error message, a fixed score and status failed. -/
structure ScreenResult where
  error : Option String := none
  analysis : Option (List Char) := none
  match_score : Nat
  status : String
  recommendation : Option String := none
deriving DecidableEq

/-- Function `screen_candidate` (`screening_crew.py` lines 14-169): missing resume
and crew exceptions yield failure dicts; a crew result is scored with
`extract_score_from_result`. -/
def screen_candidate (resume_path : String) (resumeExists : Bool)
    (outcome : CrewOutcome) : ScreenResult :=
  if !resumeExists then
    { error := some ("Resume not found: " ++ resume_path),
      match_score := 0, status := "failed" }
  else
    match outcome with
    | .ok result =>
      { analysis := some result,
        match_score := extract_score_from_result result,
        status := "completed",
        recommendation := some (extract_recommendation result) }
    | .exn e => { error := some e, match_score := 0, status := "failed" }

/-- Function `quick_screen_candidate` (`screening_crew.py` lines 215-296): no resume
existence check, and the failure dict carries match_score 50. -/
def quick_screen_candidate (outcome : CrewOutcome) : ScreenResult :=
  match outcome with
  | .ok result =>
    { analysis := some result,
      match_score := extract_score_from_result result,
      status := "completed",
      recommendation := some (extract_recommendation result) }
  | .exn e => { error := some e, match_score := 50, status := "failed" }

/-- A candidate dict passed to `screen_multiple_candidates`, together with
the oracle data its individual screening run consumes. -/
structure CandInput where
  id : String
  resume_path : String
  resumeExists : Bool
  outcome : CrewOutcome
deriving DecidableEq

/-- A screening result dict after `result['candidate_id'] = candidate_id`. -/
structure RankedResult where
  result : ScreenResult
  candidate_id : String
deriving DecidableEq

/-- Function `screen_multiple_candidates` (`screening_crew.py` lines 172-212): screen
each candidate in turn, attach its id, and sort by match score, highest
first (`results.sort(key=..., reverse=True)` is a stable descending sort,
modelled by `mergeSort` with the reversed comparison). -/
def screen_multiple_candidates (candidates : List CandInput) : List RankedResult :=
  let results := candidates.map (fun c =>
    { result := screen_candidate c.resume_path c.resumeExists c.outcome,
      candidate_id := c.id })
  results.mergeSort (fun a b => decide (b.result.match_score ≤ a.result.match_score))

/-! ### Relational rows (`database/models.py`) and route handlers -/

/-- A `CandidateDB` row, restricted to the columns the verified handlers
read or write.  Timestamps are abstract `Nat` instants. -/
structure CandidateRow where
  id : String
  job_id : String
  name : String := ""
  email : String := ""
  phone : Option String := none
  linkedin_url : Option String := none
  github_url : Option String := none
  portfolio_url : Option String := none
  cover_letter : Option String := none
  resume_path : Option String := none
  status : String := "applied"
  match_score : Option Nat := none
  screening_notes : Option (List Char) := none
  ai_assessment : Option (List Char) := none
  skills : List String := []
  match_details : Option (String × List Char) := none
  applied_at : Option Nat := none
  screened_at : Option Nat := none
  updated_at : Option Nat := none
deriving DecidableEq

/-- A `JobDB` row, restricted to the columns the verified handlers read or
write. -/
structure JobRow where
  id : String
  status : String := "active"
  title : String := ""
  description : Option String := none
  requirements : Option (List Req) := none
  min_experience_years : Option Nat := none
  experience_level : Option String := none
  total_applicants : Nat := 0
  updated_at : Option Nat := none
deriving DecidableEq

/-- The relational store. -/
structure DB where
  jobs : List JobRow
  candidates : List CandidateRow
deriving DecidableEq

/-- Python `x or default` on an optional string (None and the empty string
are falsy). -/
def pyOrStr (o : Option String) (d : String) : String :=
  match o with
  | some s => if s = "" then d else s
  | none => d

/-- Python `x or default` on an optional number (None and 0 are falsy). -/
def pyOrNat (o : Option Nat) (d : Nat) : Nat :=
  match o with
  | some n => if n = 0 then d else n
  | none => d

/-- Python `x or default` on an optional list (None and [] are falsy). -/
def pyOrReqs (o : Option (List Req)) (d : List Req) : List Req :=
  match o with
  | some l => if l = [] then d else l
  | none => d

/-- Python truthiness of an optional path (`if c.resume_path`). -/
def pyTruthyPath (o : Option String) : Bool :=
  match o with
  | some s => s ≠ ""
  | none => false

/-- The per-candidate update of `run_screening_task`
(`api/routes/screening.py` lines 56-68): record score, notes and screening
time, mark the candidate as screening, then set the final status from the
threshold comparison against `settings.min_match_score` (default 60). -/
def screeningUpdate (c : CandidateRow) (result : ScreenResult)
    (min_match_score : Nat) (now : Nat) : CandidateRow :=
  let c1 := { c with match_score := some result.match_score,
                     screening_notes := some (result.analysis.getD []),
                     status := "screening",
                     screened_at := some now }
  if result.match_score ≥ min_match_score then { c1 with status := "shortlisted" }
  else { c1 with status := "rejected" }

/-- The candidate update of `rescreen_candidate`
(`api/routes/screening.py` lines 311-325).  The threshold comparison
`candidate.match_score >= settings.min_match_score` reads the value the
preceding line assigned. -/
def rescreenUpdate (c : CandidateRow) (screening_result : ScreenResult)
    (extracted_skills : List String) (analysis : List Char)
    (min_match_score : Nat) (now : Nat) : CandidateRow :=
  let score := screening_result.match_score
  let c1 := { c with skills := extracted_skills,
                     match_score := some score,
                     ai_assessment := some (screening_result.analysis.getD []),
                     match_details := some
                       (screening_result.recommendation.getD "review", analysis.take 1000),
                     screened_at := some now }
  if score ≥ min_match_score then { c1 with status := "shortlisted" }
  else { c1 with status := "rejected" }

/-- The candidate selection query of the POST /job/screen handler
(`api/routes/screening.py` lines 116-126): applied candidates of the job
without a match score, truncated by `limit` when that is truthy
(`if limit:` skips both None and 0). -/
def selectedForScreening (db : DB) (job_id : String) (limit : Option Nat) :
    List CandidateRow :=
  let q := db.candidates.filter (fun c =>
    c.job_id == job_id && c.status == "applied" && c.match_score == none)
  match limit with
  | some n => if n ≠ 0 then q.take n else q
  | none => q

/-- The arguments the handler passes to the scheduled `run_screening_task`. -/
structure BgTaskArgs where
  job_id : String
  candidates_data : List (String × Option String)
  job_requirements : List Req
  job_description : String
  min_exp : Nat
  exp_level : String
deriving DecidableEq

/-- The two success payloads of the POST /job/screen handler. -/
inductive ScreenHandlerResponse
  | noCandidates (job_id : String)
  | processing (job_id : String) (candidates_to_screen : Nat)
deriving DecidableEq

/-- The POST /job/screen handler `screen_candidates`
(`api/routes/screening.py` lines 97-165): a read-only request handler that
schedules the background screening task and reports how many selected
candidates carry a resume path. -/
def screen_candidates (db : DB) (job_id : String) (limit : Option Nat) :
    Except Nat (DB × ScreenHandlerResponse × Option BgTaskArgs) :=
  match db.jobs.find? (fun j => j.id == job_id) with
  | none => .error 404
  | some job =>
    let cands := selectedForScreening db job_id limit
    if cands.isEmpty then .ok (db, .noCandidates job_id, none)
    else
      let candidates_data :=
        (cands.filter (fun c => pyTruthyPath c.resume_path)).map
          (fun c => (c.id, c.resume_path))
      .ok (db, .processing job_id candidates_data.length,
        some { job_id := job_id, candidates_data := candidates_data,
               job_requirements := pyOrReqs job.requirements [],
               job_description := pyOrStr job.description "",
               min_exp := pyOrNat job.min_experience_years 0,
               exp_level := pyOrStr job.experience_level "mid" })

/-! ### Candidate status values -/

/-- The `CandidateStatus` enumeration (`models/candidate.py` lines 14-23). -/
def candidateStatusValues : List String :=
  ["applied", "screening", "shortlisted", "interview", "offered", "hired",
   "rejected", "withdrawn"]

/-- Every string literal the code assigns to a candidate record's status
field, site by site: "applied" in apply.submit_application (and the column
default in database/models.py); "screening", "shortlisted", "rejected" in
screening.run_screening_task; "shortlisted", "rejected" in
screening.rescreen_candidate; "shortlisted" in
candidates.shortlist_candidate; "rejected" in candidates.reject_candidate;
"interview_scheduled" at the two commit sites of
candidates.send_interview_invitation.  The remaining two writes are not
literals: `update_candidate` assigns `update_data.status.value`, always an
enumeration member, and `update_candidate_status` assigns the raw
client-supplied string. -/
def assignedCandidateStatusLiterals : List String :=
  ["applied",
   "screening", "shortlisted", "rejected",
   "shortlisted", "rejected",
   "shortlisted",
   "rejected",
   "interview_scheduled", "interview_scheduled"]

/-! ### Application submission (`api/routes/apply.py`) -/

/-- The uploaded resume: a filename and the byte length of
`await resume.read()` (content bytes are opaque beyond their count). -/
structure UploadFile where
  filename : String
  size : Nat
deriving DecidableEq

/-- The saved-files part of the filesystem state. -/
structure FS where
  files : List (String × Nat)
deriving DecidableEq

/-- The application form fields of `submit_application`. -/
structure ApplyForm where
  name : String
  email : String
  phone : Option String := none
  linkedin_url : Option String := none
  github_url : Option String := none
  portfolio_url : Option String := none
  cover_letter : Option String := none
deriving DecidableEq

/-- The extension part of `os.path.splitext`: the suffix from the last dot,
empty when there is no dot or when every character before the last dot is
itself a dot (the leading-dot rule of `splitext`). -/
def splitextExt (s : List Char) : List Char :=
  let r := s.reverse
  let afterDot := r.takeWhile (fun c => c ≠ '.')
  if afterDot.length = s.length then []
  else
    let ext := (r.take (afterDot.length + 1)).reverse
    let base := s.take (s.length - ext.length)
    if base.any (fun c => c ≠ '.') then ext else []

/-- List `allowed_extensions` (`apply.py` line 101). -/
def allowedExtensions : List (List Char) :=
  [(".pdf").data, (".docx").data, (".doc").data]

/-- The sanitised file-name fragment derived from the applicant name:
keep alphanumeric, space, dash, underscore; strip; first 50 characters. -/
def safeNameOf (name : List Char) : List Char :=
  (pyStrip (name.filter (fun c =>
    c.isAlphanum || c = ' ' || c = '-' || c = '_'))).take 50

instance exceptDecEq {ε α : Type} [DecidableEq ε] [DecidableEq α] :
    DecidableEq (Except ε α) := fun a b =>
  match a, b with
  | .error e, .error f =>
    if h : e = f then .isTrue (h ▸ rfl)
    else .isFalse (by intro hh; injection hh; contradiction)
  | .error _, .ok _ => .isFalse (by intro hh; injection hh)
  | .ok _, .error _ => .isFalse (by intro hh; injection hh)
  | .ok x, .ok y =>
    if h : x = y then .isTrue (h ▸ rfl)
    else .isFalse (by intro hh; injection hh; contradiction)

/-- Result of the submit handler: HTTP error or success payload, alongside
the database and filesystem states after the request. -/
structure ApplyOut where
  resp : Except (Nat × String) (String × Nat)
  db : DB
  fs : FS
deriving DecidableEq

/-- Handler `submit_application` (`api/routes/apply.py` lines 63-164).  Every
validation failure raises before any write; the success path writes the
resume file, inserts the candidate row with status applied, and increments
the job's applicant count. -/
def submit_application (db : DB) (fs : FS) (resume_dir : String)
    (max_file_size_mb : Nat) (job_id : String) (form : ApplyForm)
    (resume : UploadFile) (new_id : String) (now : Nat) : ApplyOut :=
  match db.jobs.find? (fun j => j.id == job_id) with
  | none => ⟨.error (404, "Job not found"), db, fs⟩
  | some job =>
    if job.status ≠ "active" then
      ⟨.error (400, "This job is not accepting applications"), db, fs⟩
    else if db.candidates.any (fun c => c.job_id == job_id && c.email == form.email) then
      ⟨.error (400, "You have already applied for this position"), db, fs⟩
    else
      let file_ext := pyLower (splitextExt (resume.filename).data)
      if file_ext ∉ allowedExtensions then
        ⟨.error (400, "Invalid file type. Allowed: .pdf, .docx, .doc"), db, fs⟩
      else if resume.size > max_file_size_mb * 1024 * 1024 then
        ⟨.error (400, "File too large. Maximum size: " ++ toString max_file_size_mb ++ "MB"),
          db, fs⟩
      else
        let filepath := resume_dir ++ "/" ++ job_id ++ "/" ++ new_id ++ "_"
          ++ String.mk (safeNameOf (form.name).data) ++ String.mk file_ext
        let fs2 : FS := ⟨fs.files ++ [(filepath, resume.size)]⟩
        let cand : CandidateRow :=
          { id := new_id, job_id := job_id, name := form.name,
            email := form.email, phone := form.phone,
            linkedin_url := form.linkedin_url, github_url := form.github_url,
            portfolio_url := form.portfolio_url,
            cover_letter := form.cover_letter, resume_path := some filepath,
            status := "applied", applied_at := some now }
        let db2 : DB :=
          ⟨db.jobs.map (fun j =>
            if j.id == job_id then
              { j with total_applicants := j.total_applicants + 1,
                       updated_at := some now }
            else j),
           db.candidates ++ [cand]⟩
        ⟨.ok (new_id, now), db2, fs2⟩

/-- A one-job, one-candidate store used to instantiate the handler
theorems on concrete inputs. -/
def exampleDB : DB :=
  ⟨[{ id := "j1", status := "active" }],
   [{ id := "c1", job_id := "j1", email := "a@example.com",
      resume_path := some "r.pdf" }]⟩

def exampleFS : FS := ⟨[]⟩

def exampleForm : ApplyForm := { name := "Jane Doe", email := "a@example.com" }

theorem inRange100_le {o : Option Nat} {n : Nat} (h : inRange100 o = some n) :
    n ≤ 100 := by
  cases o with
  | none => simp [inRange100] at h
  | some m =>
    by_cases hm : m ≤ 100 <;> simp [inRange100, hm] at h
    omega

theorem fallbackScore_bounds (rl : List Char) :
    25 ≤ fallbackScore rl ∧ fallbackScore rl ≤ 90 := by
  unfold fallbackScore
  simp only
  split_ifs <;> omega

theorem fallbackScore_eq_claim (rl : List Char) :
    fallbackScore rl = claimFallbackScore rl := by
  unfold fallbackScore claimFallbackScore
  simp only
  split_ifs <;> omega

theorem extractCore_le (rl : List Char) : extractCore rl ≤ 100 := by
  unfold extractCore
  split
  · exact inRange100_le (by assumption)
  split
  · exact inRange100_le (by assumption)
  split
  · exact inRange100_le (by assumption)
  split
  · exact inRange100_le (by assumption)
  split
  · exact inRange100_le (by assumption)
  split
  · exact inRange100_le (by assumption)
  exact le_trans (fallbackScore_bounds rl).2 (by omega)

/-- C1, counterexample to the claim as stated: the text below contains the
line `MATCH_SCORE: 80` with `0 ≤ 80 ≤ 100`, yet `extract_score_from_result`
returns 55, because the leftmost occurrence of the `match_score` pattern
carries the out-of-range number 101, after which the code never revisits
the pattern and falls through to the keyword fallback. -/
theorem C1_counterexample :
    (linesOf ("MATCH_SCORE: 101\nMATCH_SCORE: 80").data).any
      (fun l => lineMatchScoreVal l == some 80) = true ∧
    extract_score_from_result ("MATCH_SCORE: 101\nMATCH_SCORE: 80").data = 55 := by
  constructor
  · decide
  · decide

/-- C1 (amended): `extract_score_from_result` always returns an integer
between 0 and 100 inclusive (it returns a `Nat`, so the lower bound is
inherent), and whenever the first (leftmost) match of the pattern
`match_score[\s:]*(\d+)` in the lowercased input carries a number
`n ≤ 100`, the returned value is that `n`. -/
theorem C1_amended (s : List Char) :
    extract_score_from_result s ≤ 100 ∧
    (∀ n : Nat, reSearch pat1At (pyLower s) = some n → n ≤ 100 →
      extract_score_from_result s = n) := by
  constructor
  · exact extractCore_le (pyLower s)
  · intro n h hle
    unfold extract_score_from_result extractCore
    rw [h]
    simp [inRange100, hle]

/-- C1 witness: on a text whose first `match_score` number is 85, the
amended claim yields the score 85. -/
theorem C1_amended_witness :
    reSearch pat1At (pyLower ("MATCH_SCORE: 85").data) = some 85 ∧
    (85 : Nat) ≤ 100 ∧
    extract_score_from_result ("MATCH_SCORE: 85").data = 85 :=
  ⟨by decide, by decide,
    (C1_amended ("MATCH_SCORE: 85").data).2 85 (by decide) (by decide)⟩

/-- C4: whenever none of the six numeric-score regexes yields a number
between 0 and 100, `extract_score_from_result` equals the keyword-counting
fallback described by the claim (base 45/70/55 from the match/miss keyword
counts, then the first applicable recommendation-keyword adjustment), and
the result always lies between 25 and 90 inclusive. -/
theorem C4_fallback (s : List Char) (h : noNumericScore (pyLower s) = true) :
    extract_score_from_result s = claimFallbackScore (pyLower s) ∧
    25 ≤ extract_score_from_result s ∧ extract_score_from_result s ≤ 90 := by
  unfold noNumericScore at h
  simp only [Bool.and_eq_true, Option.isNone_iff_eq_none] at h
  obtain ⟨⟨⟨⟨⟨h1, h2⟩, h3⟩, h4⟩, h5⟩, h6⟩ := h
  have hval : extract_score_from_result s = fallbackScore (pyLower s) := by
    unfold extract_score_from_result extractCore
    rw [h1, h2, h3, h4, h5, h6]
  refine ⟨hval.trans (fallbackScore_eq_claim (pyLower s)), ?_, ?_⟩
  · rw [hval]
    exact (fallbackScore_bounds (pyLower s)).1
  · rw [hval]
    exact (fallbackScore_bounds (pyLower s)).2

/-- C4 witness: the text strong/hire contains no numeric score; the fallback
gives base 55 (no match or miss keywords) raised by 20 to 75. -/
theorem C4_fallback_witness :
    noNumericScore (pyLower ("Strong Hire").data) = true ∧
    extract_score_from_result ("Strong Hire").data =
      claimFallbackScore (pyLower ("Strong Hire").data) ∧
    extract_score_from_result ("Strong Hire").data = 75 :=
  ⟨by decide, (C4_fallback ("Strong Hire").data (by decide)).1, by decide⟩

/-- C7: `extract_recommendation` always returns one of the five
recommendation labels; it returns strong_hire whenever the lowercased text
contains the strong-hire keyword, and review whenever the text contains
none of the hire keywords. -/
theorem C7_extract_recommendation (s : List Char) :
    (extract_recommendation s = "strong_hire" ∨
     extract_recommendation s = "strong_no_hire" ∨
     extract_recommendation s = "no_hire" ∨
     extract_recommendation s = "hire" ∨
     extract_recommendation s = "review") ∧
    (strIn ("strong hire").data (pyLower s) = true →
      extract_recommendation s = "strong_hire") ∧
    (strIn ("strong hire").data (pyLower s) = false →
     strIn ("strong no hire").data (pyLower s) = false →
     strIn ("no hire").data (pyLower s) = false →
     strIn ("hire").data (pyLower s) = false →
      extract_recommendation s = "review") := by
  unfold extract_recommendation
  simp only
  refine ⟨?_, ?_, ?_⟩
  · split_ifs <;> simp
  · intro h
    simp [h]
  · intro h1 h2 h3 h4
    simp [h1, h2, h3, h4]


theorem reqMatchedByClaim_eq (cands : List (List Char)) (r : Req) :
    reqMatchedByClaim cands r =
      skillIsMatched (cands.map normSkill) (normSkill r.skill) := by
  simp only [reqMatchedByClaim, skillIsMatched, List.any_map, Function.comp_def]

/-- Bucket lengths produced by the requirement loop, as counts over the
requirement list. -/
theorem classify_lengths (cs : List (List Char)) :
    ∀ (reqs : List Req) (b0 : SkillBuckets),
      ((reqs.foldl (classifyReq cs) b0).matched_required.length =
        b0.matched_required.length +
          reqs.countP (fun r => r.required && skillIsMatched cs (normSkill r.skill))) ∧
      ((reqs.foldl (classifyReq cs) b0).missing_required.length =
        b0.missing_required.length +
          reqs.countP (fun r => r.required && !skillIsMatched cs (normSkill r.skill))) ∧
      ((reqs.foldl (classifyReq cs) b0).matched_optional.length =
        b0.matched_optional.length +
          reqs.countP (fun r => !r.required && skillIsMatched cs (normSkill r.skill))) ∧
      ((reqs.foldl (classifyReq cs) b0).missing_optional.length =
        b0.missing_optional.length +
          reqs.countP (fun r => !r.required && !skillIsMatched cs (normSkill r.skill)))
  | [], _ => by simp
  | r :: rest, b0 => by
    have ih := classify_lengths cs rest (classifyReq cs b0 r)
    simp only [List.foldl_cons, List.countP_cons]
    obtain ⟨ih1, ih2, ih3, ih4⟩ := ih
    rw [ih1, ih2, ih3, ih4]
    unfold classifyReq
    by_cases hm : skillIsMatched cs (normSkill r.skill) <;>
      by_cases hr : r.required <;>
        simp [hm, hr] <;> omega

theorem countP_split (l : List Req) (p q : Req → Bool) :
    l.countP (fun a => p a && q a) + l.countP (fun a => p a && !q a) =
      l.countP p := by
  induction l with
  | nil => simp
  | cons a t ih =>
    simp only [List.countP_cons]
    cases hp : p a <;> cases hq : q a <;> simp [hp, hq] <;> omega

/-- C3: on every valid parsed input with a nonempty requirement list,
`SkillMatcherTool._run` succeeds and its overall match score is exactly
`required_score * 0.7 + optional_score * 0.3`, where the two sub-scores are
the claim's percentages of matched required and optional requirements
(100 when the respective group is empty) under the two-way substring
matching rule.  The embedding is a pure function, so the score is a
deterministic function of the input. -/
theorem C3_skill_matcher (cands : List (List Char)) (reqs : List Req)
    (h : reqs ≠ []) :
    skillMatcherRun cands reqs = .ok (runAnalysis cands reqs) ∧
    (runAnalysis cands reqs).required_score = claimRequiredScore cands reqs ∧
    (runAnalysis cands reqs).optional_score = claimOptionalScore cands reqs ∧
    (runAnalysis cands reqs).overall_score =
      claimRequiredScore cands reqs * (0.7 : ℚ) +
        claimOptionalScore cands reqs * (0.3 : ℚ) := by
  have hrun : skillMatcherRun cands reqs = .ok (runAnalysis cands reqs) := by
    unfold skillMatcherRun
    simp [List.isEmpty_iff, h]
  obtain ⟨hmr, hsr, hmo, hso⟩ :=
    classify_lengths (cands.map normSkill) reqs emptyBuckets
  simp only [emptyBuckets, List.length_nil, Nat.zero_add] at hmr hsr hmo hso
  simp only [← reqMatchedByClaim_eq] at hmr hsr hmo hso
  have hreq :
      (runAnalysis cands reqs).required_score = claimRequiredScore cands reqs := by
    unfold runAnalysis claimRequiredScore
    simp only [emptyBuckets]
    rw [hmr, hsr, countP_split reqs (fun r => r.required) (reqMatchedByClaim cands)]
    rw [← List.countP_eq_length_filter]
    have hfil :
        ((reqs.filter (fun r => r.required)).filter (reqMatchedByClaim cands)).length
          = reqs.countP (fun r => r.required && reqMatchedByClaim cands r) := by
      rw [List.filter_filter, ← List.countP_eq_length_filter]
      exact List.countP_congr (fun x _ => by cases hx : x.required <;> simp [hx])
    rw [hfil]
    rcases Nat.eq_zero_or_pos (reqs.countP (fun r => r.required)) with h0 | h0
    · simp [h0]
    · have : ¬ reqs.countP (fun r => r.required) = 0 := by omega
      rw [if_pos h0, if_neg this]
      ring
  have hopt :
      (runAnalysis cands reqs).optional_score = claimOptionalScore cands reqs := by
    unfold runAnalysis claimOptionalScore
    simp only [emptyBuckets]
    rw [hmo, hso, countP_split reqs (fun r => !r.required) (reqMatchedByClaim cands)]
    rw [← List.countP_eq_length_filter]
    have hfil :
        ((reqs.filter (fun r => !r.required)).filter (reqMatchedByClaim cands)).length
          = reqs.countP (fun r => !r.required && reqMatchedByClaim cands r) := by
      rw [List.filter_filter, ← List.countP_eq_length_filter]
      exact List.countP_congr (fun x _ => by cases hx : x.required <;> simp [hx])
    rw [hfil]
    rcases Nat.eq_zero_or_pos (reqs.countP (fun r => !r.required)) with h0 | h0
    · simp [h0]
    · have : ¬ reqs.countP (fun r => !r.required) = 0 := by omega
      rw [if_pos h0, if_neg this]
      ring
  refine ⟨hrun, hreq, hopt, ?_⟩
  unfold runAnalysis at hreq hopt ⊢
  simp only at hreq hopt ⊢
  rw [hreq, hopt]

/-- C3 witness: one candidate skill and one matching required requirement
give a 100 percent score on both sides. -/
theorem C3_skill_matcher_witness :
    ([⟨("python").data, true⟩] : List Req) ≠ [] ∧
    skillMatcherRun [("Python ").data] [⟨("python").data, true⟩] =
      .ok (runAnalysis [("Python ").data] [⟨("python").data, true⟩]) ∧
    (runAnalysis [("Python ").data] [⟨("python").data, true⟩]).overall_score =
      claimRequiredScore [("Python ").data] [⟨("python").data, true⟩] * (0.7 : ℚ) +
        claimOptionalScore [("Python ").data] [⟨("python").data, true⟩] * (0.3 : ℚ) :=
  ⟨by decide,
   (C3_skill_matcher [("Python ").data] [⟨("python").data, true⟩] (by decide)).1,
   (C3_skill_matcher [("Python ").data] [⟨("python").data, true⟩] (by decide)).2.2.2⟩

/-- C7 witness: a strong-hire text maps to strong_hire, and a keyword-free
text maps to review. -/
theorem C7_extract_recommendation_witness :
    extract_recommendation ("We recommend: STRONG HIRE").data = "strong_hire" ∧
    extract_recommendation ("nothing conclusive").data = "review" :=
  ⟨(C7_extract_recommendation ("We recommend: STRONG HIRE").data).2.1 (by decide),
   (C7_extract_recommendation ("nothing conclusive").data).2.2
     (by decide) (by decide) (by decide) (by decide)⟩

/-- C2: whenever a screening completes and records a match score — the
per-candidate update of `run_screening_task` or the update of
`rescreen_candidate` — the candidate ends shortlisted exactly when the
recorded score reaches `settings.min_match_score` (default 60) and rejected
otherwise, and is never left in status applied or screening. -/
theorem C2_threshold_status (c : CandidateRow) (result : ScreenResult)
    (extracted_skills : List String) (analysis : List Char)
    (min_match_score now : Nat) :
    ((screeningUpdate c result min_match_score now).status =
        (if result.match_score ≥ min_match_score then "shortlisted" else "rejected") ∧
     (screeningUpdate c result min_match_score now).match_score =
        some result.match_score ∧
     (screeningUpdate c result min_match_score now).status ≠ "applied" ∧
     (screeningUpdate c result min_match_score now).status ≠ "screening") ∧
    ((rescreenUpdate c result extracted_skills analysis min_match_score now).status =
        (if result.match_score ≥ min_match_score then "shortlisted" else "rejected") ∧
     (rescreenUpdate c result extracted_skills analysis min_match_score now).match_score =
        some result.match_score ∧
     (rescreenUpdate c result extracted_skills analysis min_match_score now).status ≠ "applied" ∧
     (rescreenUpdate c result extracted_skills analysis min_match_score now).status ≠ "screening") := by
  unfold screeningUpdate rescreenUpdate
  by_cases h : result.match_score ≥ min_match_score <;> simp [h]

/-- C5: `screen_candidate` and `quick_screen_candidate` are total on their
(typed) inputs: every run ends in the completed dict or a failure dict, and
on the two failure paths — missing resume file, crew exception — the result
is a dict with an error message, status failed and a numeric match score
(0, respectively 50 for the quick variant), not a propagated exception. -/
theorem C5_screening_error_dicts (resume_path : String) (outcome : CrewOutcome)
    (e : String) :
    ((screen_candidate resume_path true outcome).status = "completed" ∨
      (screen_candidate resume_path true outcome).status = "failed") ∧
    (screen_candidate resume_path false outcome).status = "failed" ∧
    (screen_candidate resume_path false outcome).error =
      some ("Resume not found: " ++ resume_path) ∧
    (screen_candidate resume_path false outcome).match_score = 0 ∧
    (screen_candidate resume_path true (.exn e)).status = "failed" ∧
    (screen_candidate resume_path true (.exn e)).error = some e ∧
    (screen_candidate resume_path true (.exn e)).match_score = 0 ∧
    ((quick_screen_candidate outcome).status = "completed" ∨
      (quick_screen_candidate outcome).status = "failed") ∧
    (quick_screen_candidate (.exn e)).status = "failed" ∧
    (quick_screen_candidate (.exn e)).error = some e ∧
    (quick_screen_candidate (.exn e)).match_score = 50 := by
  unfold screen_candidate quick_screen_candidate
  cases outcome <;> simp

/-- C6: `screen_multiple_candidates` yields exactly one result per input
candidate, the multiset of attached candidate ids is exactly the multiset
of input ids, and the output is sorted by match score in non-increasing
order. -/
theorem C6_screen_multiple (candidates : List CandInput) :
    (screen_multiple_candidates candidates).length = candidates.length ∧
    List.Perm
      ((screen_multiple_candidates candidates).map (fun r => r.candidate_id))
      (candidates.map (fun c => c.id)) ∧
    List.Pairwise (fun a b => b.result.match_score ≤ a.result.match_score)
      (screen_multiple_candidates candidates) := by
  unfold screen_multiple_candidates
  simp only
  refine ⟨?_, ?_, ?_⟩
  · rw [List.length_mergeSort, List.length_map]
  · have hp := (List.mergeSort_perm
      (candidates.map (fun c =>
        ({ result := screen_candidate c.resume_path c.resumeExists c.outcome,
           candidate_id := c.id } : RankedResult)))
      (fun a b => decide (b.result.match_score ≤ a.result.match_score))).map
      (fun r => r.candidate_id)
    simpa [List.map_map, Function.comp_def] using hp
  · have hs := @List.sorted_mergeSort RankedResult
      (fun a b => decide (b.result.match_score ≤ a.result.match_score))
      (by
        intro a b c h1 h2
        simp only [decide_eq_true_eq] at h1 h2 ⊢
        omega)
      (by
        intro a b
        simp only [Bool.or_eq_true, decide_eq_true_eq]
        omega)
      (candidates.map (fun c =>
        ({ result := screen_candidate c.resume_path c.resumeExists c.outcome,
           candidate_id := c.id } : RankedResult)))
    exact hs.imp (fun h => by simpa using h)

/-- C8 counterexample: the interview-invitation route (`candidates.py`
lines 401 and 413) assigns the status literal interview_scheduled, which is
not a member of the CandidateStatus enumeration, refuting the claim that no
operation writes a status outside that set. -/
theorem C8_counterexample :
    "interview_scheduled" ∈ assignedCandidateStatusLiterals ∧
    "interview_scheduled" ∉ candidateStatusValues := by
  constructor
  · decide
  · decide

/-- C8 (amended): every status literal the code assigns to a candidate
record is a member of the CandidateStatus enumeration, except the literal
interview_scheduled written by `send_interview_invitation`; in particular
the screening and rescreening updates always leave the status inside the
enumeration. -/
theorem C8_amended_status_enum :
    (assignedCandidateStatusLiterals.all
      (fun s => candidateStatusValues.contains s || s == "interview_scheduled")
        = true) ∧
    (∀ (c : CandidateRow) (result : ScreenResult) (m now : Nat),
      (screeningUpdate c result m now).status ∈ candidateStatusValues) ∧
    (∀ (c : CandidateRow) (result : ScreenResult) (sk : List String)
        (an : List Char) (m now : Nat),
      (rescreenUpdate c result sk an m now).status ∈ candidateStatusValues) := by
  refine ⟨by decide, ?_, ?_⟩
  · intro c result m now
    by_cases h : result.match_score ≥ m <;>
      simp [screeningUpdate, h, candidateStatusValues]
  · intro c result sk an m now
    by_cases h : result.match_score ≥ m <;>
      simp [rescreenUpdate, h, candidateStatusValues]

/-- C9: the POST /job/screen handler performs no writes: in every success
outcome the returned store equals the input store, and the payload is the
no-candidates message when the selection is empty and otherwise the
processing payload whose candidates_to_screen is the number of selected
candidates carrying a resume path. -/
theorem C9_screen_candidates_frame (db : DB) (job_id : String)
    (limit : Option Nat) :
    match screen_candidates db job_id limit with
    | .error code => code = 404
    | .ok (dbAfter, resp, _) =>
      dbAfter = db ∧
      resp = (if (selectedForScreening db job_id limit).isEmpty then
                ScreenHandlerResponse.noCandidates job_id
              else
                ScreenHandlerResponse.processing job_id
                  ((selectedForScreening db job_id limit).filter
                    (fun c => pyTruthyPath c.resume_path)).length) := by
  unfold screen_candidates
  cases hfind : db.jobs.find? (fun j => j.id == job_id) with
  | none => simp
  | some job =>
    by_cases hempty : (selectedForScreening db job_id limit).isEmpty <;>
      simp [hempty]

/-- C10: `submit_application` fails atomically: every 4xx outcome returns
the store and filesystem unchanged, and — given an existing active job —
a duplicate application for the same job and email yields HTTP 400, as do
an unsupported resume extension and an oversized upload. -/
theorem C10_submit_atomic (db : DB) (fs : FS) (resume_dir : String)
    (maxMB : Nat) (job_id : String) (form : ApplyForm) (resume : UploadFile)
    (new_id : String) (now : Nat) :
    (∀ err, (submit_application db fs resume_dir maxMB job_id form resume new_id now).resp = .error err →
      (submit_application db fs resume_dir maxMB job_id form resume new_id now).db = db ∧
      (submit_application db fs resume_dir maxMB job_id form resume new_id now).fs = fs) ∧
    ((db.jobs.find? (fun j => j.id == job_id)).any (fun j => j.status == "active") = true →
      ((db.candidates.any (fun c => c.job_id == job_id && c.email == form.email) = true →
        (submit_application db fs resume_dir maxMB job_id form resume new_id now).resp =
          .error (400, "You have already applied for this position")) ∧
       (db.candidates.any (fun c => c.job_id == job_id && c.email == form.email) = false →
        pyLower (splitextExt (resume.filename).data) ∉ allowedExtensions →
        (submit_application db fs resume_dir maxMB job_id form resume new_id now).resp =
          .error (400, "Invalid file type. Allowed: .pdf, .docx, .doc")) ∧
       (db.candidates.any (fun c => c.job_id == job_id && c.email == form.email) = false →
        pyLower (splitextExt (resume.filename).data) ∈ allowedExtensions →
        resume.size > maxMB * 1024 * 1024 →
        (submit_application db fs resume_dir maxMB job_id form resume new_id now).resp =
          .error (400, "File too large. Maximum size: " ++ toString maxMB ++ "MB")))) := by
  unfold submit_application
  cases hfind : db.jobs.find? (fun j => j.id == job_id) with
  | none => simp
  | some job =>
    by_cases h1 : job.status = "active"
    case neg =>
      simp only [h1, if_neg, Option.any_some]
      constructor
      · intro err _
        simp [h1]
      · intro hactive
        simp only [beq_iff_eq] at hactive
        exact absurd hactive h1
    case pos =>
      by_cases h2 : db.candidates.any
          (fun c => c.job_id == job_id && c.email == form.email)
      · simp [h1, h2]
      · by_cases h3 : pyLower (splitextExt (resume.filename).data) ∈ allowedExtensions
        · by_cases h4 : resume.size > maxMB * 1024 * 1024
          · simp [h1, h2, h3, h4]
          · simp [h1, h2, h3, h4]
        · simp [h1, h2, h3]

/-- C10 witness: on the concrete store whose only candidate already applied
to job j1 with the same email, a second submission is rejected with 400 and
both states are unchanged. -/
theorem C10_submit_atomic_witness :
    (submit_application exampleDB exampleFS "./data/resumes" 10 "j1"
        exampleForm ⟨"cv.pdf", 100⟩ "c2" 0).resp =
      .error (400, "You have already applied for this position") ∧
    (submit_application exampleDB exampleFS "./data/resumes" 10 "j1"
        exampleForm ⟨"cv.pdf", 100⟩ "c2" 0).db = exampleDB ∧
    (submit_application exampleDB exampleFS "./data/resumes" 10 "j1"
        exampleForm ⟨"cv.pdf", 100⟩ "c2" 0).fs = exampleFS := by
  have hdup := ((C10_submit_atomic exampleDB exampleFS "./data/resumes" 10 "j1"
      exampleForm ⟨"cv.pdf", 100⟩ "c2" 0).2 (by decide)).1 (by decide)
  have hframe := (C10_submit_atomic exampleDB exampleFS "./data/resumes" 10 "j1"
      exampleForm ⟨"cv.pdf", 100⟩ "c2" 0).1
    (400, "You have already applied for this position") hdup
  exact ⟨hdup, hframe.1, hframe.2⟩

end SmartRecruiter
